import Mathlib

/-!
Shallow embedding of `src/TriggerBox/TriggerBox.py` (class `BPTriggerBox`).

The Python module wraps a pyserial handle.  We model the handle as an
`Interface` (open flag plus current line level), the observable effects as a
trace of `Action`s, the external serial library (pyserial, not part of this
repository) as a `SerialEnv` that decides whether (re)opening the port is
granted, and each Python method as a function returning
`Except TBError (state × trace)`.  Python exceptions are the `TBError`
constructors: `invalidArgument` models the `AssertionError` raised by the
`assert` statements in `send`, `connectionError` models the serial
exceptions raised when opening the port fails, and `portNotOpen` models
pyserial's `PortNotOpenError` for I/O on a closed handle.
An `Except.error` result models the Python call raising: the caller observes
no new state and no actions on the wire.
-/

namespace TriggerBox

/-- A single observable effect on the serial interface. -/
inductive Action where
  | write (b : Nat)
  | sleep (d : ℚ)
  | flushInput
  | flushOutput
  | openPort
  | closePort
  deriving DecidableEq, Repr

/-- Errors surfaced by the trigger box operations. -/
inductive TBError where
  | invalidArgument
  | connectionError
  | portNotOpen
  deriving DecidableEq, Repr

/-- The state of the serial handle: whether it is open, and the byte level
currently on the wire. -/
structure Interface where
  is_open : Bool
  line : Nat
  deriving DecidableEq, Repr

/-- The `port_config` dictionary of `__init__`. -/
structure PortConfig where
  port : String
  baudrate : Nat
  timeout : Option ℚ
  exclusive : Bool
  deriving DecidableEq, Repr

/-- Environment supplied by the operating system and the external serial
library: whether opening the port succeeds (it is available and not held
exclusively elsewhere), and the line level found before anything is written. -/
structure SerialEnv where
  openSucceeds : Bool
  initialLine : Nat
  deriving DecidableEq, Repr

/-- A Python value passed to `send`.  Python `bool` is a subclass of `int`,
so `isinstance(True, int)` holds; boolean arguments are therefore covered by
the `int` constructor.  The remaining constructors are representative
non-integer arguments. -/
inductive PyValue where
  | int (n : ℤ)
  | float (q : ℚ)
  | str (s : String)
  | none
  deriving DecidableEq, Repr

/-- `isinstance(v, int)` of the Python source. -/
def PyValue.isInt : PyValue → Bool
  | PyValue.int _ => true
  | _ => false

/-- `self._interface.write(bytes([b]))`: pyserial raises `PortNotOpenError`
on a closed handle; on an open handle it puts byte `b` on the wire. -/
def Interface.write (i : Interface) (b : Nat) :
    Except TBError (Interface × List Action) :=
  if i.is_open then Except.ok ({ i with line := b }, [Action.write b])
  else Except.error TBError.portNotOpen

/-- `self._interface.open()`: pyserial raises on an already-open handle, and
raises a serial exception when the OS refuses the port; otherwise the handle
becomes open. -/
def Interface.doOpen (env : SerialEnv) (i : Interface) :
    Except TBError (Interface × List Action) :=
  if i.is_open then Except.error TBError.connectionError
  else if env.openSucceeds then
    Except.ok ({ i with is_open := true }, [Action.openPort])
  else Except.error TBError.connectionError

/-- `self._interface.close()`: closes an open handle; a no-op on a closed
handle. -/
def Interface.close (i : Interface) : Interface × List Action :=
  if i.is_open then ({ i with is_open := false }, [Action.closePort])
  else (i, [])

/-- `self._interface.flushInput()`: raises on a closed handle. -/
def Interface.flushInput (i : Interface) :
    Except TBError (Interface × List Action) :=
  if i.is_open then Except.ok (i, [Action.flushInput])
  else Except.error TBError.portNotOpen

/-- `self._interface.flushOutput()`: raises on a closed handle. -/
def Interface.flushOutput (i : Interface) :
    Except TBError (Interface × List Action) :=
  if i.is_open then Except.ok (i, [Action.flushOutput])
  else Except.error TBError.portNotOpen

/-- `serial.Serial(port=..., baudrate=..., timeout=..., exclusive=...)`:
acquires the handle, already open, or raises when the environment refuses
the port. -/
def serialSerial (env : SerialEnv) (cfg : PortConfig) :
    Except TBError (Interface × List Action) :=
  if env.openSucceeds then
    Except.ok ({ is_open := true, line := env.initialLine }, [Action.openPort])
  else Except.error TBError.connectionError

/-- The state of one `BPTriggerBox` instance: its serial handle and the
pulse width `self.pw` fixed at construction. -/
structure BPTriggerBox where
  interface : Interface
  pw : ℚ
  deriving DecidableEq, Repr

/-- The default `port_config` argument of `__init__`. -/
def defaultConfig : PortConfig :=
  { port := "COM8", baudrate := 2000000, timeout := Option.none,
    exclusive := true }

/-- `BPTriggerBox.__init__`: acquires the serial handle, stores the pulse
width, appends `self` to the class registry, and writes byte 0.  Python
appends a reference to `self` before the write, but the registry entry
aliases the instance, so the registry observes the post-write interface;
the value model therefore records the final instance state in the registry.
Returns the new instance, the updated registry, and the action trace. -/
def BPTriggerBox.init (env : SerialEnv) (port_config : PortConfig)
    (pulsewidth : ℚ) (instances : List BPTriggerBox) :
    Except TBError (BPTriggerBox × List BPTriggerBox × List Action) :=
  match serialSerial env port_config with
  | Except.error e => Except.error e
  | Except.ok (iface, a0) =>
    match iface.write 0 with
    | Except.error e => Except.error e
    | Except.ok (i1, a1) =>
      Except.ok ({ interface := i1, pw := pulsewidth },
        instances ++ [{ interface := i1, pw := pulsewidth }], a0 ++ a1)

/-- `BPTriggerBox.send(trigger_value)`: asserts the argument is an integer,
asserts `0 < trigger_value < 255`, writes the byte, sleeps for `self.pw`,
writes byte 0.  A failed assertion raises before any write. -/
def BPTriggerBox.send (box : BPTriggerBox) (trigger_value : PyValue) :
    Except TBError (BPTriggerBox × List Action) :=
  match trigger_value with
  | PyValue.int v =>
    if 0 < v ∧ v < 255 then
      match box.interface.write v.toNat with
      | Except.error e => Except.error e
      | Except.ok (i1, a1) =>
        match i1.write 0 with
        | Except.error e => Except.error e
        | Except.ok (i2, a3) =>
          Except.ok ({ box with interface := i2 },
            a1 ++ [Action.sleep box.pw] ++ a3)
    else Except.error TBError.invalidArgument
  | _ => Except.error TBError.invalidArgument

/-- `BPTriggerBox.reset_port(close_only)`: opens the handle if it is closed,
flushes the input and output buffers, closes the handle, and reopens it
unless `close_only` is set. -/
def BPTriggerBox.reset_port (env : SerialEnv) (box : BPTriggerBox)
    (close_only : Bool) : Except TBError (BPTriggerBox × List Action) :=
  match (if box.interface.is_open then
          Except.ok (box.interface, ([] : List Action))
        else Interface.doOpen env box.interface) with
  | Except.error e => Except.error e
  | Except.ok (i0, a0) =>
    match i0.flushInput with
    | Except.error e => Except.error e
    | Except.ok (i1, a1) =>
      match i1.flushOutput with
      | Except.error e => Except.error e
      | Except.ok (i2, a2) =>
        match i2.close with
        | (i3, a3) =>
          if close_only then
            Except.ok ({ box with interface := i3 }, a0 ++ a1 ++ a2 ++ a3)
          else
            match Interface.doOpen env i3 with
            | Except.error e => Except.error e
            | Except.ok (i4, a4) =>
              Except.ok ({ box with interface := i4 },
                a0 ++ a1 ++ a2 ++ a3 ++ a4)

/-- `BPTriggerBox.close_all_ports()`: closes the serial handle of every
instance in the class registry.  (The Python `if cls.instances:` guard is
redundant: an empty registry makes the loop a no-op either way.) -/
def close_all_ports (instances : List BPTriggerBox) :
    List BPTriggerBox × List Action :=
  (instances.map fun b => { b with interface := (b.interface.close).1 },
   (instances.map fun b => (b.interface.close).2).flatten)

/-- The bytes that appear on the wire, in order, in a trace. -/
def writtenBytes : List Action → List Nat
  | [] => []
  | Action.write b :: rest => b :: writtenBytes rest
  | _ :: rest => writtenBytes rest

/-- A concrete environment in which opening the port succeeds. -/
def wEnv : SerialEnv := { openSucceeds := true, initialLine := 7 }

/-- A concrete environment in which opening the port fails. -/
def wEnvFail : SerialEnv := { openSucceeds := false, initialLine := 7 }

/-- A concrete instance with an open handle, as `__init__` produces it with
pulse width 1. -/
def wBox : BPTriggerBox := { interface := { is_open := true, line := 0 }, pw := 1 }

/-- A concrete instance whose handle is closed. -/
def wBoxClosed : BPTriggerBox :=
  { interface := { is_open := false, line := 0 }, pw := 1 }

/-- Characterization of `__init__`: it succeeds exactly when the environment
grants the port, producing an open handle with line level 0, the registry
extended by the new instance, and the trace open-then-write-0. -/
theorem init_eq (env : SerialEnv) (cfg : PortConfig) (pw : ℚ)
    (insts : List BPTriggerBox) :
    BPTriggerBox.init env cfg pw insts =
      if env.openSucceeds then
        Except.ok ({ interface := { is_open := true, line := 0 }, pw := pw },
          insts ++ [{ interface := { is_open := true, line := 0 }, pw := pw }],
          [Action.openPort, Action.write 0])
      else Except.error TBError.connectionError := by
  by_cases he : env.openSucceeds <;>
    simp [BPTriggerBox.init, serialSerial, Interface.write, he]

/-- Characterization of `send` on an integer argument. -/
theorem send_int_eq (box : BPTriggerBox) (v : ℤ) :
    box.send (PyValue.int v) =
      if 0 < v ∧ v < 255 then
        if box.interface.is_open then
          Except.ok ({ box with interface := { box.interface with line := 0 } },
            [Action.write v.toNat, Action.sleep box.pw, Action.write 0])
        else Except.error TBError.portNotOpen
      else Except.error TBError.invalidArgument := by
  by_cases hc : 0 < v ∧ v < 255 <;> by_cases ho : box.interface.is_open <;>
    simp [BPTriggerBox.send, Interface.write, hc, ho]

/-- Characterization of `reset_port`: it succeeds exactly when the handle is
open or can be opened, and, unless `close_only` is set, can be reopened; on
success the handle ends open exactly when `close_only` is unset, the line
level is untouched, and the trace is (open if the handle was closed), flush
input, flush output, close, (reopen unless `close_only`). -/
theorem reset_port_cases (env : SerialEnv) (box : BPTriggerBox) (c : Bool) :
    BPTriggerBox.reset_port env box c =
      if (box.interface.is_open || env.openSucceeds) &&
          (c || env.openSucceeds) then
        Except.ok ({ box with interface := { box.interface with is_open := !c } },
          (if box.interface.is_open then [] else [Action.openPort]) ++
            [Action.flushInput, Action.flushOutput, Action.closePort] ++
            (if c then [] else [Action.openPort]))
      else Except.error TBError.connectionError := by
  by_cases ho : box.interface.is_open <;> by_cases he : env.openSucceeds <;>
    cases c <;>
      simp [BPTriggerBox.reset_port, Interface.doOpen, Interface.flushInput,
        Interface.flushOutput, Interface.close, ho, he]

/-- Claim C1: for every integer v with 1 ≤ v ≤ 254, `send(v)` on an open
handle performs exactly three actions in order — it writes the single byte v,
blocks for the pulse width `self.pw` fixed at construction, then writes the
single byte 0 — and returns nothing beyond the updated state. -/
theorem send_valid_three_actions (box : BPTriggerBox) (v : ℤ)
    (hopen : box.interface.is_open = true) (h1 : 1 ≤ v) (h2 : v ≤ 254) :
    box.send (PyValue.int v) =
      Except.ok ({ box with interface := { box.interface with line := 0 } },
        [Action.write v.toNat, Action.sleep box.pw, Action.write 0]) := by
  rw [send_int_eq]
  have hc : 0 < v ∧ v < 255 := ⟨by omega, by omega⟩
  simp [hc, hopen]

/-- Witness for C1 at v = 5 on a concrete open instance. -/
theorem send_valid_three_actions_witness :
    wBox.send (PyValue.int 5) =
      Except.ok ({ wBox with interface := { wBox.interface with line := 0 } },
        [Action.write (Int.toNat 5), Action.sleep wBox.pw, Action.write 0]) :=
  send_valid_three_actions wBox 5 rfl (by decide) (by decide)

/-- Claim C2: for every argument that is the integer 0, an integer at least
255, or not an integer, `send` fails with the assertion error (modelled as
`invalidArgument`) and performs no writes: the error result carries no new
state and no actions, since the `assert` statements run before any write. -/
theorem send_invalid_rejected (box : BPTriggerBox) (v : PyValue)
    (h : v = PyValue.int 0 ∨ (∃ n : ℤ, v = PyValue.int n ∧ 255 ≤ n) ∨
      v.isInt = false) :
    box.send v = Except.error TBError.invalidArgument := by
  rcases h with rfl | ⟨n, rfl, hn⟩ | h
  · simp [BPTriggerBox.send]
  · rw [send_int_eq]
    have : ¬(0 < n ∧ n < 255) := by omega
    simp [this]
  · cases v <;> simp_all [PyValue.isInt, BPTriggerBox.send]

/-- Witness for C2 at v = 0 on a concrete instance. -/
theorem send_invalid_rejected_witness :
    wBox.send (PyValue.int 0) = Except.error TBError.invalidArgument :=
  send_invalid_rejected wBox (PyValue.int 0) (Or.inl rfl)

/-- Claim C3: the line is zero at rest — construction leaves the line at 0,
every completed `send` leaves the line at 0, and `reset_port` and
`close_all_ports` preserve a zero line. -/
theorem line_zero_at_rest :
    (∀ env cfg pw insts box insts2 acts,
        BPTriggerBox.init env cfg pw insts = Except.ok (box, insts2, acts) →
        box.interface.line = 0) ∧
    (∀ (box : BPTriggerBox) v box2 acts,
        box.send v = Except.ok (box2, acts) → box2.interface.line = 0) ∧
    (∀ env (box : BPTriggerBox) c box2 acts, box.interface.line = 0 →
        BPTriggerBox.reset_port env box c = Except.ok (box2, acts) →
        box2.interface.line = 0) ∧
    (∀ insts, (∀ b ∈ insts, b.interface.line = 0) →
        ∀ b ∈ (close_all_ports insts).1, b.interface.line = 0) := by
  refine ⟨?_, ?_, ?_, ?_⟩
  · intro env cfg pw insts box insts2 acts h
    rw [init_eq] at h
    by_cases he : env.openSucceeds <;> simp [he] at h
    obtain ⟨h1, -, -⟩ := h
    rw [← h1]
  · intro box v box2 acts h
    cases v with
    | int n =>
      rw [send_int_eq] at h
      by_cases hc : 0 < n ∧ n < 255 <;>
        by_cases ho : box.interface.is_open = true <;> simp [hc, ho] at h
      obtain ⟨h1, -⟩ := h
      rw [← h1]
    | float q => simp [BPTriggerBox.send] at h
    | str s => simp [BPTriggerBox.send] at h
    | none => simp [BPTriggerBox.send] at h
  · intro env box c box2 acts hline h
    rw [reset_port_cases] at h
    split at h
    · simp only [Except.ok.injEq, Prod.mk.injEq] at h
      obtain ⟨h1, -⟩ := h
      rw [← h1]
      simpa using hline
    · simp at h
  · intro insts hall b hb
    simp only [close_all_ports, List.mem_map] at hb
    obtain ⟨a, ha, rfl⟩ := hb
    by_cases h : a.interface.is_open = true <;>
      simp [Interface.close, h, hall a ha]

/-- Witness for C3: the first conjunct applied to a concrete successful
construction. -/
theorem line_zero_at_rest_witness : wBox.interface.line = 0 :=
  line_zero_at_rest.1 wEnv defaultConfig 1 [] wBox [wBox]
    [Action.openPort, Action.write 0] rfl

/-- Claim C4: construction succeeds only when the environment grants the
serial handle, and on success the trace is exactly acquiring the handle then
one write of byte 0, leaving the handle open before any `send` can occur. -/
theorem init_writes_zero_once (env : SerialEnv) (cfg : PortConfig) (pw : ℚ)
    (insts : List BPTriggerBox) (box : BPTriggerBox)
    (insts2 : List BPTriggerBox) (acts : List Action)
    (h : BPTriggerBox.init env cfg pw insts = Except.ok (box, insts2, acts)) :
    env.openSucceeds = true ∧ acts = [Action.openPort, Action.write 0] ∧
      writtenBytes acts = [0] ∧ box.interface.is_open = true := by
  rw [init_eq] at h
  by_cases he : env.openSucceeds <;> simp [he] at h ⊢
  obtain ⟨h1, -, h3⟩ := h
  rw [← h1, ← h3]
  simp [writtenBytes]

/-- Witness for C4 at a concrete successful construction. -/
theorem init_writes_zero_once_witness :
    wEnv.openSucceeds = true ∧
      [Action.openPort, Action.write 0] = [Action.openPort, Action.write 0] ∧
      writtenBytes [Action.openPort, Action.write 0] = [0] ∧
      wBox.interface.is_open = true :=
  init_writes_zero_once wEnv defaultConfig 1 [] wBox [wBox]
    [Action.openPort, Action.write 0] rfl

/-- Claim C5: when the environment grants reopening, `reset_port` flushes the
input and output buffers and closes the handle; with `close_only` the handle
is left closed, otherwise it is reopened and left open — which is exactly the
precondition under which `send` succeeds. -/
theorem reset_port_flush_close (env : SerialEnv) (box : BPTriggerBox)
    (c : Bool) (he : env.openSucceeds = true) :
    BPTriggerBox.reset_port env box c =
      Except.ok ({ box with interface := { box.interface with is_open := !c } },
        (if box.interface.is_open then [] else [Action.openPort]) ++
          [Action.flushInput, Action.flushOutput, Action.closePort] ++
          (if c then [] else [Action.openPort])) := by
  rw [reset_port_cases]
  simp [he]

/-- Witness for C5 on a concrete open instance with close_only unset. -/
theorem reset_port_flush_close_witness :
    BPTriggerBox.reset_port wEnv wBox false =
      Except.ok ({ wBox with
          interface := { wBox.interface with is_open := !false } },
        (if wBox.interface.is_open then [] else [Action.openPort]) ++
          [Action.flushInput, Action.flushOutput, Action.closePort] ++
          (if false then [] else [Action.openPort])) :=
  reset_port_flush_close wEnv wBox false rfl

/-- Claim C6: opening with baud rate 2,000,000 and then `send(1)` puts
exactly the bytes [0, 1, 0] on the wire — the initial reset on open, the
trigger, and the automatic reset — with the sleep of the configured pulse
width between the write of 1 and the final write of 0. -/
theorem scenario_open_send_one (env : SerialEnv) (cfg : PortConfig) (pw : ℚ)
    (insts : List BPTriggerBox) (he : env.openSucceeds = true)
    (hbaud : cfg.baudrate = 2000000) :
    ∃ box insts2 box2,
      BPTriggerBox.init env cfg pw insts =
        Except.ok (box, insts2, [Action.openPort, Action.write 0]) ∧
      box.send (PyValue.int 1) =
        Except.ok (box2, [Action.write 1, Action.sleep pw, Action.write 0]) ∧
      writtenBytes ([Action.openPort, Action.write 0] ++
        [Action.write 1, Action.sleep pw, Action.write 0]) = [0, 1, 0] := by
  refine ⟨{ interface := { is_open := true, line := 0 }, pw := pw },
    insts ++ [{ interface := { is_open := true, line := 0 }, pw := pw }],
    { interface := { is_open := true, line := 0 }, pw := pw }, ?_, ?_, ?_⟩
  · rw [init_eq]; simp [he]
  · rw [send_int_eq]; simp
  · simp [writtenBytes]

/-- Witness for C6 at a concrete environment and the default configuration. -/
theorem scenario_open_send_one_witness :
    ∃ box insts2 box2,
      BPTriggerBox.init wEnv defaultConfig 1 [] =
        Except.ok (box, insts2, [Action.openPort, Action.write 0]) ∧
      box.send (PyValue.int 1) =
        Except.ok (box2, [Action.write 1, Action.sleep 1, Action.write 0]) ∧
      writtenBytes ([Action.openPort, Action.write 0] ++
        [Action.write 1, Action.sleep 1, Action.write 0]) = [0, 1, 0] :=
  scenario_open_send_one wEnv defaultConfig 1 [] rfl rfl

/-- Claim C7: when the environment refuses the port, construction fails with
the connection error and construction succeeds only when the port is granted;
`reset_port` surfaces the same error when its open or reopen step is refused,
with no retry — the operations are single attempts by definition. -/
theorem connection_errors_surfaced :
    (∀ env cfg pw insts, env.openSucceeds = false →
        BPTriggerBox.init env cfg pw insts =
          Except.error TBError.connectionError) ∧
    (∀ env cfg pw insts box insts2 acts,
        BPTriggerBox.init env cfg pw insts = Except.ok (box, insts2, acts) →
        env.openSucceeds = true) ∧
    (∀ env (box : BPTriggerBox) c, env.openSucceeds = false →
        box.interface.is_open = false →
        BPTriggerBox.reset_port env box c =
          Except.error TBError.connectionError) ∧
    (∀ env (box : BPTriggerBox), env.openSucceeds = false →
        box.interface.is_open = true →
        BPTriggerBox.reset_port env box false =
          Except.error TBError.connectionError) := by
  refine ⟨?_, ?_, ?_, ?_⟩
  · intro env cfg pw insts he
    rw [init_eq]
    simp [he]
  · intro env cfg pw insts box insts2 acts h
    rw [init_eq] at h
    by_cases he : env.openSucceeds <;> simp [he] at h ⊢
  · intro env box c he ho
    rw [reset_port_cases]
    simp [he, ho]
  · intro env box he ho
    rw [reset_port_cases]
    simp [he, ho]

/-- Witness for C7: the first conjunct at a concrete refusing environment. -/
theorem connection_errors_surfaced_witness :
    BPTriggerBox.init wEnvFail defaultConfig 1 [] =
      Except.error TBError.connectionError :=
  connection_errors_surfaced.1 wEnvFail defaultConfig 1 [] rfl

/-- Claim C8: `close_all_ports` closes the handle of every instance in the
registry: after it runs, no instance in the resulting registry holds an open
handle. -/
theorem close_all_ports_closes (insts : List BPTriggerBox) :
    ∀ b ∈ (close_all_ports insts).1, b.interface.is_open = false := by
  intro b hb
  simp only [close_all_ports, List.mem_map] at hb
  obtain ⟨a, ha, rfl⟩ := hb
  by_cases h : a.interface.is_open = true <;> simp [Interface.close, h]

/-- Witness for C8 on a concrete one-element registry. -/
theorem close_all_ports_closes_witness : wBoxClosed.interface.is_open = false :=
  close_all_ports_closes [wBox] wBoxClosed (by
    simp [close_all_ports, Interface.close, wBox, wBoxClosed])

/-- Claim C9: for every integer v ≤ 0, `send(v)` raises the assertion error
before performing any write, because the validation requires
0 < trigger_value < 255. -/
theorem send_nonpositive_rejected (box : BPTriggerBox) (v : ℤ) (h : v ≤ 0) :
    box.send (PyValue.int v) = Except.error TBError.invalidArgument := by
  rw [send_int_eq]
  have : ¬(0 < v ∧ v < 255) := by omega
  simp [this]

/-- Witness for C9 at v = -7 on a concrete instance. -/
theorem send_nonpositive_rejected_witness :
    wBox.send (PyValue.int (-7)) = Except.error TBError.invalidArgument :=
  send_nonpositive_rejected wBox (-7) (by decide)

/-- Claim C10: if the handle is already closed when `reset_port` is called
and the environment grants opening, the handle is first reopened so the
flush, close and optional reopen still run, and the final handle state is
closed exactly when `close_only` is set. -/
theorem reset_port_closed_handle (env : SerialEnv) (box : BPTriggerBox)
    (c : Bool) (he : env.openSucceeds = true)
    (hclosed : box.interface.is_open = false) :
    BPTriggerBox.reset_port env box c =
      Except.ok ({ box with interface := { box.interface with is_open := !c } },
        Action.openPort :: Action.flushInput :: Action.flushOutput ::
          Action.closePort :: (if c then [] else [Action.openPort])) := by
  rw [reset_port_cases]
  simp [he, hclosed]

/-- Witness for C10 on a concrete closed instance with close_only set. -/
theorem reset_port_closed_handle_witness :
    BPTriggerBox.reset_port wEnv wBoxClosed true =
      Except.ok ({ wBoxClosed with
          interface := { wBoxClosed.interface with is_open := !true } },
        Action.openPort :: Action.flushInput :: Action.flushOutput ::
          Action.closePort :: (if true then [] else [Action.openPort])) :=
  reset_port_closed_handle wEnv wBoxClosed true rfl rfl

end TriggerBox
